import Mathlib

/-!
Shallow Lean embedding of the multi-tenant site layer of this repository:

* `get_site_for_hostname`, `Site.clean`, `Site.find_for_request`
  (wagtail/models/sites.py),
* the site permission backend `SiteAuthBackend` (wagtail/sites/backends.py)
  together with the model-level entry point `AbstractSiteUser.site_has_perm`,
* the session helpers `set_current_session_project` (wagtail/sites/utils.py)
  and `site_workon_view` (wagtail/sites/views.py),
* the method-name dispatch table of `SitePermissionsMonkeyPatchMixin`
  (wagtail/sites/utils.py).

Database tables are modelled as lists of records in base queryset order,
Python sets of permission strings as `Finset String`, Python `None` as
`Option.none`, and a raised exception as an explicit outcome constructor.
The SQL `ORDER BY` of a queryset is modelled as a stable sort on the base
order of the table (`stableSortBy`), which is the deterministic reading of
`order_by("match")`.
-/

namespace WagtailSites

/-! ### Generic stable sort, modelling queryset `order_by` on an integer key -/

/-- Insert `x` into `l` in front of the first element whose key is not
smaller; used to build a stable sort. -/
def sortedInsertBy {α : Type} (key : α → Nat) (x : α) : List α → List α
  | [] => [x]
  | y :: ys => if key x ≤ key y then x :: y :: ys else y :: sortedInsertBy key x ys

/-- Stable insertion sort by a natural-number key: elements with equal keys
keep their relative order from the input list. -/
def stableSortBy {α : Type} (key : α → Nat) : List α → List α
  | [] => []
  | x :: xs => sortedInsertBy key x (stableSortBy key xs)

/-! ### Tenant store: the Site model (wagtail/models/sites.py) -/

/-- One row of the Site table: `hostname` and `port` are the columns used by
resolution; `id` is the primary key. `unique_together = (hostname, port)` is
a database constraint, carried as a hypothesis where a claim needs it. -/
structure Site where
  id : Nat
  hostname : String
  port : Nat
deriving DecidableEq

/-- MATCH_HOSTNAME_PORT = 0 in wagtail/models/sites.py. -/
def MATCH_HOSTNAME_PORT : Nat := 0

/-- MATCH_HOSTNAME = 1 in wagtail/models/sites.py. -/
def MATCH_HOSTNAME : Nat := 1

/-- The `Case` annotation of `get_site_for_hostname`:
`When(hostname=hostname, port=port, then=MATCH_HOSTNAME_PORT)`,
`When(hostname=hostname, then=MATCH_HOSTNAME)`, and SQL `NULL` (here `none`)
when neither `When` clause matches. -/
def siteMatch (hostname : String) (port : Nat) (s : Site) : Option Nat :=
  if s.hostname = hostname ∧ s.port = port then some MATCH_HOSTNAME_PORT
  else if s.hostname = hostname then some MATCH_HOSTNAME
  else none

/-- Sort key for `order_by("match")`: the annotated value, with `NULL`
ordered after every ranked value. Rows surviving the hostname filter are
never `NULL`. -/
def matchKey (hostname : String) (port : Nat) (s : Site) : Nat :=
  (siteMatch hostname port s).getD 2

/-- Outcome of `get_site_for_hostname`: the returned Site row plus whether
`logger.warning` fired, or the raised `Site.DoesNotExist`. -/
inductive SiteResolution where
  | found (site : Site) (warned : Bool)
  | doesNotExist
deriving DecidableEq

/-- Embedding of `get_site_for_hostname(hostname, port)`
(wagtail/models/sites.py lines 38-68): annotate every Site row with the
match rank, keep rows whose hostname equals the query hostname, order by
rank, then return the first row — warning when there are several candidates
and the first is not an exact hostname+port match — or raise
`Site.DoesNotExist` when no row survives the filter. -/
def get_site_for_hostname (table : List Site) (hostname : String) (port : Nat) :
    SiteResolution :=
  match stableSortBy (matchKey hostname port)
      (table.filter (fun s => s.hostname == hostname)) with
  | [] => SiteResolution.doesNotExist
  | s0 :: rest =>
      if rest = [] ∨ siteMatch hostname port s0 = some MATCH_HOSTNAME_PORT then
        SiteResolution.found s0 false
      else
        SiteResolution.found s0 true

/-- Python `str.lower`, at the character level. -/
def py_lower (s : String) : String := String.mk (s.data.map Char.toLower)

/-- Embedding of `Site.clean` (wagtail/models/sites.py lines 142-143):
lowercases the stored hostname. -/
def Site.clean (s : Site) : Site := { s with hostname := py_lower s.hostname }

/-- The request object as seen by `Site.find_for_request`: the hostname part
of the host header, the port, and the `_wagtail_site` attribute (`none`
models the attribute being absent). `split_domain_port` is Django framework
code outside this repository; `host` here is its already-split result. -/
structure Request where
  host : String
  port : Nat
  wagtail_site : Option Site
deriving DecidableEq

/-- Outcome of `Site.find_for_request`: `noRequest` for a `None` request,
`found` for a returned site, `doesNotExist` for the propagated
`Site.DoesNotExist` exception. -/
inductive FindOutcome where
  | noRequest
  | found (site : Site)
  | doesNotExist
deriving DecidableEq

/-- Embedding of `Site._find_for_request` (wagtail/models/sites.py lines
185-193): resolve from the host and port of the request and re-raise
`Site.DoesNotExist`. -/
def _find_for_request (table : List Site) (r : Request) : SiteResolution :=
  get_site_for_hostname table r.host r.port

/-- Embedding of `Site.find_for_request` (wagtail/models/sites.py lines
159-183). Returns the outcome together with the request as it stands after
the call: a `None` request yields `None`; an existing `_wagtail_site`
attribute is returned unchanged; otherwise `_find_for_request` runs, and on
success the result is stored in `_wagtail_site` via `setattr` — on
`Site.DoesNotExist` the exception propagates before the `setattr`, leaving
the request without a cached value. -/
def find_for_request (table : List Site) (req : Option Request) :
    FindOutcome × Option Request :=
  match req with
  | none => (FindOutcome.noRequest, none)
  | some r =>
      match r.wagtail_site with
      | some s => (FindOutcome.found s, some r)
      | none =>
          match _find_for_request table r with
          | SiteResolution.found site _ =>
              (FindOutcome.found site, some { r with wagtail_site := some site })
          | SiteResolution.doesNotExist =>
              (FindOutcome.doesNotExist, some r)

/-! ### Tenant identity: AbstractSiteUser and SiteAuthBackend -/

/-- One SiteUser row together with its permission-relevant database
neighbourhood and the in-memory cache attributes the backend attaches to the
Python instance. `site_user_permissions` is the set of permission strings
(`app_label.codename`) granted directly to the identity
(`Permission.objects.filter(permission_siteusers=site_user_obj)`), and
`group_permissions` the set reachable through its SiteGroups
(`Permission.objects.filter(permission_sitegroups__sitegroup_siteusers=site_user_obj)`).
The three `Option` fields model the `_user_perm_cache`, `_group_perm_cache`
and `_perm_cache` attributes, `none` meaning the attribute is absent. -/
structure SiteUser where
  site : Site
  is_active : Bool
  is_superuser : Bool
  site_user_permissions : Finset String
  group_permissions : Finset String
  user_perm_cache : Option (Finset String)
  group_perm_cache : Option (Finset String)
  perm_cache : Option (Finset String)
deriving DecidableEq

/-- The `site_id` foreign-key column of a SiteUser row. -/
def SiteUser.site_id (su : SiteUser) : Nat := su.site.id

/-- The `from_name` argument of `SiteAuthBackend._get_site_permissions`:
either "user" or "group". -/
inductive PermSource where
  | user
  | group
deriving DecidableEq

/-- Read the per-kind cache attribute (`_user_perm_cache` or
`_group_perm_cache`) of a SiteUser instance. -/
def permCache (su : SiteUser) : PermSource → Option (Finset String)
  | PermSource.user => su.user_perm_cache
  | PermSource.group => su.group_perm_cache

/-- Set the per-kind cache attribute of a SiteUser instance. -/
def setPermCache (su : SiteUser) (k : PermSource) (v : Finset String) : SiteUser :=
  match k with
  | PermSource.user => { su with user_perm_cache := some v }
  | PermSource.group => { su with group_perm_cache := some v }

/-- The per-kind database query of the backend:
`SiteAuthBackend._get_site_user_permissions` returns the direct grants,
`SiteAuthBackend._get_site_group_permissions` the grants through groups
(wagtail/sites/backends.py lines 32-40), both as permission strings after
`values_list("content_type__app_label", "codename")`. -/
def dbPermQuery (su : SiteUser) : PermSource → Finset String
  | PermSource.user => su.site_user_permissions
  | PermSource.group => su.group_permissions

/-- Embedding of `SiteAuthBackend._get_site_permissions` (wagtail/sites/
backends.py lines 42-65), returning the permission set together with the
SiteUser instance as mutated by the cache write. An inactive identity or a
non-None `obj` yields the empty set before any cache access. On a cache
miss, a superuser gets `Permission.objects.filter(permission_siteusers=
site_user_obj)` — the direct grants — and anyone else the per-kind query;
the result is stored in the per-kind cache attribute. -/
def _get_site_permissions (su : SiteUser) (obj : Option Unit) (from_name : PermSource) :
    Finset String × SiteUser :=
  if !su.is_active || obj.isSome then (∅, su)
  else
    match permCache su from_name with
    | some cached => (cached, su)
    | none =>
        let perms :=
          if su.is_superuser then su.site_user_permissions
          else dbPermQuery su from_name
        (perms, setPermCache su from_name perms)

/-- `SiteAuthBackend.get_site_user_permissions` (wagtail/sites/backends.py
lines 67-72). -/
def get_site_user_permissions (su : SiteUser) (obj : Option Unit) :
    Finset String × SiteUser :=
  _get_site_permissions su obj PermSource.user

/-- `SiteAuthBackend.get_site_group_permissions` (wagtail/sites/backends.py
lines 74-79). -/
def get_site_group_permissions (su : SiteUser) (obj : Option Unit) :
    Finset String × SiteUser :=
  _get_site_permissions su obj PermSource.group

/-- Embedding of `SiteAuthBackend.get_site_all_permissions` (wagtail/sites/
backends.py lines 81-86): empty for an inactive identity or a non-None
`obj`; otherwise the `_perm_cache` attribute, filled on a miss with
`BaseSiteAuthBackend.get_site_all_permissions`, the union of the overridden
user and group getters called with `obj=None`. -/
def get_site_all_permissions (su : SiteUser) (obj : Option Unit) :
    Finset String × SiteUser :=
  if !su.is_active || obj.isSome then (∅, su)
  else
    match su.perm_cache with
    | some cached => (cached, su)
    | none =>
        let ru := get_site_user_permissions su none
        let rg := get_site_group_permissions ru.2 none
        let all := ru.1 ∪ rg.1
        (all, { rg.2 with perm_cache := some all })

/-- Embedding of `SiteAuthBackend.has_site_perm` (wagtail/sites/backends.py
lines 88-91): `site_user_obj.is_active and super().has_site_perm(...)`,
where the base method tests membership in `self.get_site_all_permissions`.
Python `and` short-circuits, so nothing runs for an inactive identity. -/
def has_site_perm (su : SiteUser) (perm : String) (obj : Option Unit) :
    Bool × SiteUser :=
  if !su.is_active then (false, su)
  else
    let ra := get_site_all_permissions su obj
    (decide (perm ∈ ra.1), ra.2)

/-- Embedding of `_site_user_has_perm` (wagtail/models/sites.py lines
304-316) for the deployment shape enforced by wagtail/sites/checks.py: the
backend chain holds exactly one `BaseSiteAuthBackend` subclass — modelled as
`SiteAuthBackend` — plus ordinary Django backends, which lack `has_site_perm`
and are skipped by the `hasattr` probe. `SiteAuthBackend` never raises
`PermissionDenied`, so the loop reduces to the single backend answer. -/
def _site_user_has_perm (su : SiteUser) (perm : String) (obj : Option Unit) :
    Bool × SiteUser :=
  has_site_perm su perm obj

/-- Embedding of `AbstractSiteUser.site_has_perm` (wagtail/models/sites.py
lines 448-461): an active superuser has every permission; everyone else is
checked against the backends. -/
def site_has_perm (su : SiteUser) (perm : String) (obj : Option Unit) :
    Bool × SiteUser :=
  if su.is_active && su.is_superuser then (true, su)
  else _site_user_has_perm su perm obj

/-- Written from the words of the specification, for comparison with the
code: the claimed permission set for a superuser on a per-kind cache miss —
an unfiltered query of the whole auth Permission table (all permissions
under the app), not a per-identity query. -/
def unfiltered_all_permissions (permissionTable : Finset String) : Finset String :=
  permissionTable

/-! ### Compatibility overlay dispatch (wagtail/sites/utils.py) -/

/-- The permission-surface methods defined by `AbstractSiteUser`
(wagtail/models/sites.py lines 394-481). -/
def abstractSiteUserMethods : List String :=
  ["find_for_request", "get_site_user_permissions", "get_site_group_permissions",
   "get_site_all_permissions", "site_has_perm", "site_has_perms",
   "site_has_module_perms"]

/-- For each overlay method of `SitePermissionsMonkeyPatchMixin`
(wagtail/sites/utils.py lines 71-99), the attribute name the method body
reads off `self.site_user` when a site_user is attached; `none` for a name
that is not an overlay method. -/
def mixinDelegateTarget (m : String) : Option String :=
  if m = "get_user_permissions" then some "get_site_user_permissions"
  else if m = "get_group_permissions" then some "get_group_permissions"
  else if m = "get_all_permissions" then some "get_site_all_permissions"
  else if m = "has_perm" then some "site_has_perm"
  else if m = "has_perms" then some "site_has_perms"
  else if m = "has_module_perms" then some "site_has_module_perms"
  else none

/-- The tenant-scoped equivalent each overlay method is meant to reach,
read off the correspondence stated by the specification (each legacy method
delegates to the site_user method of the same kind). -/
def specDelegateTarget (m : String) : Option String :=
  if m = "get_user_permissions" then some "get_site_user_permissions"
  else if m = "get_group_permissions" then some "get_site_group_permissions"
  else if m = "get_all_permissions" then some "get_site_all_permissions"
  else if m = "has_perm" then some "site_has_perm"
  else if m = "has_perms" then some "site_has_perms"
  else if m = "has_module_perms" then some "site_has_module_perms"
  else none

/-! ### Session pointers and tenant switching -/

/-- The per-request mutable state touched by `set_current_session_project`:
the `site_id` session key, the `site_user` attribute of `request.user`, and
the `_wagtail_site` attribute of the request. -/
structure SessionRequest where
  session_site_id : Option Nat
  user_site_user : Option SiteUser
  request_wagtail_site : Option Site
deriving DecidableEq

/-- Embedding of `set_current_session_project` (wagtail/sites/utils.py lines
11-17): with `set_default` true it writes the session key, and it always
points `request.user.site_user` and `request._wagtail_site` at the given
identity. -/
def set_current_session_project (st : SessionRequest) (site_user : SiteUser)
    (set_default : Bool) : SessionRequest :=
  { session_site_id :=
      if set_default then some site_user.site_id else st.session_site_id
    user_site_user := some site_user
    request_wagtail_site := some site_user.site }

/-- Outcome of `site_workon_view`: either the success message path or the
`SiteUser.DoesNotExist` error-message path. -/
inductive WorkonOutcome where
  | success
  | noAccess
deriving DecidableEq

/-- Embedding of `site_workon_view` (wagtail/sites/views.py lines 107-125).
`user_siteusers` is the list of SiteUser rows of the requesting user, in
queryset order; the `unique_site_user` constraint means at most one row per
site, so `request.user.user_siteusers.get(site_id=site_id)` is modelled by
`find?`. On `SiteUser.DoesNotExist` an error message is shown and the state
is untouched; on success `set_current_session_project` updates the three
pointers. -/
def site_workon_view (st : SessionRequest) (user_siteusers : List SiteUser)
    (site_id : Nat) : SessionRequest × WorkonOutcome :=
  match user_siteusers.find? (fun su => su.site_id == site_id) with
  | none => (st, WorkonOutcome.noAccess)
  | some su => (set_current_session_project st su true, WorkonOutcome.success)

/-! ### Concrete fixtures used by witnesses and counterexamples -/

/-- Fixture: a site on example.com with a non-default port. -/
def c1_siteA : Site := { id := 1, hostname := "example.com", port := 8000 }

/-- Fixture: a site on example.com with the default port 80. -/
def c1_siteB : Site := { id := 2, hostname := "example.com", port := 80 }

/-- Fixture table, in base queryset order. -/
def c1_table : List Site := [c1_siteA, c1_siteB]

/-- Fixture: a site on example.com with port 8000. -/
def c2_siteA : Site := { id := 1, hostname := "example.com", port := 8000 }

/-- Fixture: a site on example.com with port 80. -/
def c2_siteB : Site := { id := 2, hostname := "example.com", port := 80 }

/-- Fixture table for the hostname-shared-by-two-ports scenario. -/
def c2_table : List Site := [c2_siteA, c2_siteB]

/-- Fixture: a site on example.com with port 80, listed first. -/
def c3_siteA : Site := { id := 1, hostname := "example.com", port := 80 }

/-- Fixture: a site on example.com with port 8000, listed second. -/
def c3_siteB : Site := { id := 2, hostname := "example.com", port := 8000 }

/-- Fixture table with two candidates for hostname example.com. -/
def c3_table : List Site := [c3_siteA, c3_siteB]

/-- Fixture: a fresh request for example.com port 80 with no cached site. -/
def c4_req : Request := { host := "example.com", port := 80, wagtail_site := none }

/-- Fixture: the site matching `c4_req`. -/
def c4_site : Site := { id := 1, hostname := "example.com", port := 80 }

/-- Fixture: the request after a successful first resolution of `c4_req`. -/
def c4_req_cached : Request :=
  { host := "example.com", port := 80, wagtail_site := some c4_site }

/-- Fixture: an active superuser identity with no stored grants. -/
def c5_su_super : SiteUser :=
  { site := { id := 1, hostname := "example.com", port := 80 }
    is_active := true, is_superuser := true
    site_user_permissions := ∅, group_permissions := ∅
    user_perm_cache := none, group_perm_cache := none, perm_cache := none }

/-- Fixture: an inactive identity whose superuser flag is still set. -/
def c5_su_inactive : SiteUser :=
  { site := { id := 1, hostname := "example.com", port := 80 }
    is_active := false, is_superuser := true
    site_user_permissions := ∅, group_permissions := ∅
    user_perm_cache := none, group_perm_cache := none, perm_cache := none }

/-- Fixture: an active superuser with one direct grant and one group grant,
no caches filled. -/
def c6_su : SiteUser :=
  { site := { id := 1, hostname := "example.com", port := 80 }
    is_active := true, is_superuser := true
    site_user_permissions := {"app.direct"}, group_permissions := {"app.group"}
    user_perm_cache := none, group_perm_cache := none, perm_cache := none }

/-- Fixture: the full auth Permission table of the deployment, a strict
superset of every grant of `c6_su`. -/
def c6_permissionTable : Finset String := {"app.direct", "app.group", "app.other"}

/-- Fixture: a stored site whose hostname is already lowercase. -/
def c7_site : Site := { id := 1, hostname := "example.com", port := 80 }

/-- Fixture: an identity of site 1 for the tenant-switch scenario. -/
def c9_su : SiteUser :=
  { site := { id := 1, hostname := "example.com", port := 80 }
    is_active := true, is_superuser := false
    site_user_permissions := ∅, group_permissions := ∅
    user_perm_cache := none, group_perm_cache := none, perm_cache := none }

/-- Fixture: session and request pointers before the tenant switch. -/
def c9_state : SessionRequest :=
  { session_site_id := some 7, user_site_user := none, request_wagtail_site := none }

/-- Fixture: an active non-superuser identity holding a direct grant, for
the object-level checks. -/
def c10_su : SiteUser :=
  { site := { id := 1, hostname := "example.com", port := 80 }
    is_active := true, is_superuser := false
    site_user_permissions := {"app.direct"}, group_permissions := ∅
    user_perm_cache := none, group_perm_cache := none, perm_cache := none }

/-- Fixture: an active superuser identity, for the object-level checks. -/
def c10_su_super : SiteUser :=
  { site := { id := 1, hostname := "example.com", port := 80 }
    is_active := true, is_superuser := true
    site_user_permissions := ∅, group_permissions := ∅
    user_perm_cache := none, group_perm_cache := none, perm_cache := none }

/-! ### Helper lemmas about the stable sort -/

theorem sortedInsertBy_perm {α : Type} (key : α → Nat) (x : α) (l : List α) :
    (sortedInsertBy key x l).Perm (x :: l) := by
  induction l with
  | nil => simp [sortedInsertBy]
  | cons y ys ih =>
      by_cases h : key x ≤ key y
      · simp [sortedInsertBy, h]
      · simp only [sortedInsertBy, if_neg h]
        exact (ih.cons y).trans (List.Perm.swap x y ys)

theorem stableSortBy_perm {α : Type} (key : α → Nat) (l : List α) :
    (stableSortBy key l).Perm l := by
  induction l with
  | nil => simp [stableSortBy]
  | cons x xs ih =>
      exact (sortedInsertBy_perm key x (stableSortBy key xs)).trans (ih.cons x)

theorem pairwise_sortedInsertBy {α : Type} (key : α → Nat) (x : α) (l : List α)
    (hl : l.Pairwise (fun a b => key a ≤ key b)) :
    (sortedInsertBy key x l).Pairwise (fun a b => key a ≤ key b) := by
  induction l with
  | nil => simp [sortedInsertBy]
  | cons y ys ih =>
      obtain ⟨hy, hys⟩ := List.pairwise_cons.mp hl
      by_cases h : key x ≤ key y
      · simp only [sortedInsertBy, if_pos h]
        refine List.pairwise_cons.mpr ⟨?_, hl⟩
        intro z hz
        rcases List.mem_cons.mp hz with rfl | hz2
        · exact h
        · exact Nat.le_trans h (hy z hz2)
      · simp only [sortedInsertBy, if_neg h]
        refine List.pairwise_cons.mpr ⟨?_, ih hys⟩
        intro z hz
        have hz2 : z ∈ x :: ys := (sortedInsertBy_perm key x ys).mem_iff.mp hz
        rcases List.mem_cons.mp hz2 with rfl | hz3
        · exact Nat.le_of_not_le h
        · exact hy z hz3

theorem pairwise_stableSortBy {α : Type} (key : α → Nat) (l : List α) :
    (stableSortBy key l).Pairwise (fun a b => key a ≤ key b) := by
  induction l with
  | nil => simp [stableSortBy]
  | cons x xs ih => exact pairwise_sortedInsertBy key x _ ih

theorem stableSortBy_head_min {α : Type} (key : α → Nat) (l : List α) (x : α)
    (rest : List α) (h : stableSortBy key l = x :: rest) :
    ∀ y ∈ l, key x ≤ key y := by
  intro y hy
  have hy2 : y ∈ x :: rest := by
    rw [← h]
    exact (stableSortBy_perm key l).mem_iff.mpr hy
  rcases List.mem_cons.mp hy2 with rfl | hy3
  · exact Nat.le_refl _
  · have hp := pairwise_stableSortBy key l
    rw [h] at hp
    exact (List.pairwise_cons.mp hp).1 y hy3

theorem stableSortBy_eq_nil_iff {α : Type} (key : α → Nat) (l : List α) :
    stableSortBy key l = [] ↔ l = [] := by
  constructor
  · intro h
    have hp := stableSortBy_perm key l
    rw [h] at hp
    exact (hp.symm).eq_nil
  · intro h
    subst h
    rfl

theorem mem_stableSortBy {α : Type} (key : α → Nat) (a : α) (l : List α) :
    a ∈ stableSortBy key l ↔ a ∈ l :=
  (stableSortBy_perm key l).mem_iff

theorem stableSortBy_length {α : Type} (key : α → Nat) (l : List α) :
    (stableSortBy key l).length = l.length :=
  (stableSortBy_perm key l).length_eq

/-! ### Helper lemmas about the match annotation and the resolver -/

theorem matchKey_eq_zero_iff (hostname : String) (port : Nat) (s : Site) :
    matchKey hostname port s = 0 ↔ s.hostname = hostname ∧ s.port = port := by
  unfold matchKey siteMatch MATCH_HOSTNAME_PORT MATCH_HOSTNAME
  split_ifs with h1 h2 <;> simp_all

theorem siteMatch_eq_hostname_port_iff (hostname : String) (port : Nat) (s : Site)
    (hh : s.hostname = hostname) :
    siteMatch hostname port s = some MATCH_HOSTNAME_PORT ↔ s.port = port := by
  unfold siteMatch MATCH_HOSTNAME_PORT MATCH_HOSTNAME
  split_ifs with h1 <;> simp_all

theorem siteMatch_of_hostname_not_port (hostname : String) (port : Nat) (s : Site)
    (hh : s.hostname = hostname) (hp : s.port ≠ port) :
    siteMatch hostname port s = some MATCH_HOSTNAME := by
  unfold siteMatch
  rw [if_neg, if_pos hh]
  rintro ⟨_, hp2⟩
  exact hp hp2

theorem resolve_doesNotExist_iff (table : List Site) (hostname : String) (port : Nat) :
    get_site_for_hostname table hostname port = SiteResolution.doesNotExist ↔
      ∀ s ∈ table, s.hostname ≠ hostname := by
  unfold get_site_for_hostname
  cases hs : stableSortBy (matchKey hostname port)
      (table.filter (fun s => s.hostname == hostname)) with
  | nil =>
      have hf : table.filter (fun s => s.hostname == hostname) = [] :=
        (stableSortBy_eq_nil_iff _ _).mp hs
      simp only [List.filter_eq_nil_iff] at hf
      constructor
      · intro _ s hmem heq
        exact hf s hmem (by simp [heq])
      · intro _
        rfl
  | cons s0 rest =>
      have hs0 : s0 ∈ table.filter (fun s => s.hostname == hostname) := by
        rw [← mem_stableSortBy (matchKey hostname port), hs]
        exact List.mem_cons_self s0 rest
      obtain ⟨hs0t, hs0h⟩ := List.mem_filter.mp hs0
      constructor
      · intro hcontra
        dsimp only at hcontra
        split_ifs at hcontra
      · intro hall
        exact absurd (by simpa using hs0h) (hall s0 hs0t)

theorem resolve_found_spec (table : List Site) (hostname : String) (port : Nat)
    (s : Site) (w : Bool)
    (hf : get_site_for_hostname table hostname port = SiteResolution.found s w) :
    s ∈ table ∧ s.hostname = hostname ∧
      ∀ t ∈ table, t.hostname = hostname →
        matchKey hostname port s ≤ matchKey hostname port t := by
  unfold get_site_for_hostname at hf
  cases hs : stableSortBy (matchKey hostname port)
      (table.filter (fun t => t.hostname == hostname)) with
  | nil =>
      rw [hs] at hf
      cases hf
  | cons s0 rest =>
      rw [hs] at hf
      dsimp only at hf
      have hss0 : s0 = s := by
        split_ifs at hf <;> injection hf with h1 _
      subst hss0
      have hs0 : s0 ∈ table.filter (fun t => t.hostname == hostname) := by
        rw [← mem_stableSortBy (matchKey hostname port), hs]
        exact List.mem_cons_self s0 rest
      obtain ⟨hs0t, hs0h⟩ := List.mem_filter.mp hs0
      refine ⟨hs0t, by simpa using hs0h, ?_⟩
      intro t ht hth
      have htf : t ∈ table.filter (fun u => u.hostname == hostname) :=
        List.mem_filter.mpr ⟨ht, by simp [hth]⟩
      exact stableSortBy_head_min (matchKey hostname port) _ s0 rest hs t htf

theorem resolve_found_exact (table : List Site) (hostname : String) (port : Nat)
    (s : Site) (w : Bool)
    (hex : ∃ t ∈ table, t.hostname = hostname ∧ t.port = port)
    (hf : get_site_for_hostname table hostname port = SiteResolution.found s w) :
    s.hostname = hostname ∧ s.port = port := by
  obtain ⟨t, ht, hth, htp⟩ := hex
  obtain ⟨_, hsh, hmin⟩ := resolve_found_spec table hostname port s w hf
  have hle : matchKey hostname port s ≤ matchKey hostname port t := hmin t ht hth
  have ht0 : matchKey hostname port t = 0 :=
    (matchKey_eq_zero_iff hostname port t).mpr ⟨hth, htp⟩
  have hs0 : matchKey hostname port s = 0 := Nat.le_zero.mp (ht0 ▸ hle)
  exact (matchKey_eq_zero_iff hostname port s).mp hs0

theorem resolve_found_warned_iff (table : List Site) (hostname : String) (port : Nat)
    (s : Site) (w : Bool)
    (hf : get_site_for_hostname table hostname port = SiteResolution.found s w) :
    w = true ↔
      2 ≤ (table.filter (fun t => t.hostname == hostname)).length ∧ s.port ≠ port := by
  unfold get_site_for_hostname at hf
  cases hs : stableSortBy (matchKey hostname port)
      (table.filter (fun t => t.hostname == hostname)) with
  | nil =>
      rw [hs] at hf
      cases hf
  | cons s0 rest =>
      rw [hs] at hf
      have hs0 : s0 ∈ table.filter (fun t => t.hostname == hostname) := by
        rw [← mem_stableSortBy (matchKey hostname port), hs]
        exact List.mem_cons_self s0 rest
      obtain ⟨hs0t, hs0h⟩ := List.mem_filter.mp hs0
      have hs0hn : s0.hostname = hostname := by simpa using hs0h
      have hlen : (table.filter (fun t => t.hostname == hostname)).length
          = rest.length + 1 := by
        rw [← stableSortBy_length (matchKey hostname port), hs]
        rfl
      dsimp only at hf
      split_ifs at hf with hcond
      · injection hf with h1 h2
        subst h1
        subst h2
        simp only [Bool.false_eq_true, false_iff]
        rintro ⟨hlen2, hport⟩
        rcases hcond with hrest | hmatch
        · rw [hlen, hrest] at hlen2
          exact absurd hlen2 (by decide)
        · exact hport ((siteMatch_eq_hostname_port_iff hostname port s0 hs0hn).mp hmatch)
      · injection hf with h1 h2
        subst h1
        subst h2
        push_neg at hcond
        obtain ⟨hrest, hmatch⟩ := hcond
        simp only [true_iff]
        constructor
        · rw [hlen]
          have : rest.length ≠ 0 := by
            intro h0
            exact hrest (List.eq_nil_of_length_eq_zero h0)
          omega
        · intro hport
          exact hmatch ((siteMatch_eq_hostname_port_iff hostname port s0 hs0hn).mpr hport)

/-! ### Claim C1 -/

/-- C1 (amended): in `get_site_for_hostname`, rank 0 is the exact
hostname+port match and every other hostname match gets rank 1
(MATCH_HOSTNAME) regardless of its port — there is no preferred rank for
hostname matches on the deployment default port. The returned candidate is
a hostname match of minimal rank, and whenever an exact match exists the
returned candidate is an exact match. -/
theorem C1_rank_selection (table : List Site) (hostname : String) (port : Nat)
    (s : Site) (w : Bool)
    (hf : get_site_for_hostname table hostname port = SiteResolution.found s w) :
    s ∈ table ∧ s.hostname = hostname ∧
      (∀ t ∈ table, t.hostname = hostname →
        matchKey hostname port s ≤ matchKey hostname port t) ∧
      ((∃ t ∈ table, t.hostname = hostname ∧ t.port = port) → s.port = port) ∧
      (∀ t : Site, t.hostname = hostname → t.port ≠ port →
        siteMatch hostname port t = some MATCH_HOSTNAME) := by
  obtain ⟨h1, h2, h3⟩ := resolve_found_spec table hostname port s w hf
  refine ⟨h1, h2, h3, ?_, ?_⟩
  · intro hex
    exact (resolve_found_exact table hostname port s w hex hf).2
  · intro t hth htp
    exact siteMatch_of_hostname_not_port hostname port t hth htp

/-- C1 (witness): the amended theorem instantiated on the two-site fixture
with query port 9999. -/
theorem C1_rank_selection_witness :
    c1_siteA ∈ c1_table ∧ c1_siteA.hostname = "example.com" ∧
      (∀ t ∈ c1_table, t.hostname = "example.com" →
        matchKey "example.com" 9999 c1_siteA ≤ matchKey "example.com" 9999 t) ∧
      ((∃ t ∈ c1_table, t.hostname = "example.com" ∧ t.port = 9999) →
        c1_siteA.port = 9999) ∧
      (∀ t : Site, t.hostname = "example.com" → t.port ≠ 9999 →
        siteMatch "example.com" 9999 t = some MATCH_HOSTNAME) :=
  C1_rank_selection c1_table "example.com" 9999 c1_siteA true (by decide)

/-- C1 (counterexample): sites example.com:8000 and example.com:80 with
query port 9999. The claim puts the port-80 site (deployment default port)
at rank 1 and the port-8000 site strictly lower, so the port-80 site should
be selected; the code gives both candidates the same rank MATCH_HOSTNAME
and returns the port-8000 site. -/
theorem C1_counterexample :
    get_site_for_hostname c1_table "example.com" 9999 =
        SiteResolution.found c1_siteA true ∧
      c1_siteA.port = 8000 ∧ c1_siteB ∈ c1_table ∧
      c1_siteB.hostname = "example.com" ∧ c1_siteB.port = 80 ∧
      siteMatch "example.com" 9999 c1_siteA = siteMatch "example.com" 9999 c1_siteB := by
  decide

/-! ### Claim C2 -/

/-- C2: assuming (hostname, port) uniquely identifies a site, resolving the
hostname and port of T1 returns T1, and no other site can be returned for
that query. -/
theorem C2_resolve_own_key (table : List Site) (T1 : Site) (hmem : T1 ∈ table)
    (huniq : ∀ a ∈ table, ∀ b ∈ table,
      a.hostname = b.hostname → a.port = b.port → a = b) :
    ∃ w, get_site_for_hostname table T1.hostname T1.port =
        SiteResolution.found T1 w ∧
      ∀ T2 w2, get_site_for_hostname table T1.hostname T1.port =
        SiteResolution.found T2 w2 → T2 = T1 := by
  cases hres : get_site_for_hostname table T1.hostname T1.port with
  | doesNotExist =>
      exact absurd rfl
        ((resolve_doesNotExist_iff table T1.hostname T1.port).mp hres T1 hmem)
  | found s w =>
      obtain ⟨hsm, hsh, _⟩ := resolve_found_spec table T1.hostname T1.port s w hres
      have hexact := resolve_found_exact table T1.hostname T1.port s w
        ⟨T1, hmem, rfl, rfl⟩ hres
      have hs1 : s = T1 := huniq s hsm T1 hmem hexact.1 hexact.2
      subst hs1
      refine ⟨w, rfl, ?_⟩
      intro T2 w2 h2
      injection h2 with ha _
      exact ha.symm

/-- C2 (witness): the fixture of the claim — two sites sharing
example.com with ports 8000 and 80; resolving ("example.com", 80) returns
the port-80 site. -/
theorem C2_resolve_own_key_witness :
    ∃ w, get_site_for_hostname c2_table c2_siteB.hostname c2_siteB.port =
        SiteResolution.found c2_siteB w ∧
      ∀ T2 w2, get_site_for_hostname c2_table c2_siteB.hostname c2_siteB.port =
        SiteResolution.found T2 w2 → T2 = c2_siteB :=
  C2_resolve_own_key c2_table c2_siteB (by decide) (by decide)

/-! ### Claim C3 -/

/-- C3 (amended): `get_site_for_hostname` raises `Site.DoesNotExist` exactly
when no Site row matches the query hostname, and it never errors on
ambiguity; the diagnostic warning fires exactly when two or more candidates
match the hostname AND the selected candidate is not an exact hostname+port
match — with an exact match present, several candidates produce no
warning. -/
theorem C3_error_and_warning (table : List Site) (hostname : String) (port : Nat) :
    (get_site_for_hostname table hostname port = SiteResolution.doesNotExist ↔
      ∀ s ∈ table, s.hostname ≠ hostname) ∧
    (∀ s w, get_site_for_hostname table hostname port = SiteResolution.found s w →
      (w = true ↔
        2 ≤ (table.filter (fun t => t.hostname == hostname)).length ∧
          s.port ≠ port)) := by
  refine ⟨resolve_doesNotExist_iff table hostname port, ?_⟩
  intro s w hf
  exact resolve_found_warned_iff table hostname port s w hf

/-- C3 (witness): on the two-candidate fixture with query port 9999 the
returned candidate carries the warning, as the amended theorem demands. -/
theorem C3_error_and_warning_witness :
    true = true ↔
      2 ≤ (c3_table.filter (fun t => t.hostname == "example.com")).length ∧
        c3_siteA.port ≠ 9999 :=
  (C3_error_and_warning c3_table "example.com" 9999).2 c3_siteA true (by decide)

/-- C3 (counterexample): two candidates match hostname example.com, so the
claim demands a diagnostic warning; the query ("example.com", 80) has an
exact match and the code returns it with no warning. -/
theorem C3_counterexample :
    get_site_for_hostname c3_table "example.com" 80 =
        SiteResolution.found c3_siteA false ∧
      (c3_table.filter (fun t => t.hostname == "example.com")).length = 2 := by
  decide

/-! ### Claim C4 -/

/-- C4 (amended): a successful resolution is cached on the request: once
`find_for_request` has returned a site, calling it again on the resulting
request returns the same site and leaves the request unchanged, whatever
the Site table now holds. (A `Site.DoesNotExist` outcome is NOT cached: the
exception propagates before the cache attribute is written.) -/
theorem C4_success_cached (table table2 : List Site) (r : Request) (s : Site)
    (r2 : Request)
    (h : find_for_request table (some r) = (FindOutcome.found s, some r2)) :
    find_for_request table2 (some r2) = (FindOutcome.found s, some r2) := by
  obtain ⟨rhost, rport, rws⟩ := r
  cases rws with
  | some c =>
      have h2 : (FindOutcome.found c, some (⟨rhost, rport, some c⟩ : Request)) =
          (FindOutcome.found s, some r2) := h
      rw [Prod.mk.injEq] at h2
      obtain ⟨ha, hb⟩ := h2
      injection ha with ha2
      injection hb with hb2
      subst ha2
      subst hb2
      rfl
  | none =>
      have hred : find_for_request table (some (⟨rhost, rport, none⟩ : Request)) =
          match _find_for_request table (⟨rhost, rport, none⟩ : Request) with
          | SiteResolution.found site _ =>
              (FindOutcome.found site, some (⟨rhost, rport, some site⟩ : Request))
          | SiteResolution.doesNotExist =>
              (FindOutcome.doesNotExist, some (⟨rhost, rport, none⟩ : Request)) := rfl
      rw [hred] at h
      cases hr : _find_for_request table (⟨rhost, rport, none⟩ : Request) with
      | found site wsite =>
          rw [hr] at h
          have h2 : (FindOutcome.found site,
              some (⟨rhost, rport, some site⟩ : Request)) =
              (FindOutcome.found s, some r2) := h
          rw [Prod.mk.injEq] at h2
          obtain ⟨ha, hb⟩ := h2
          injection ha with ha2
          injection hb with hb2
          subst ha2
          subst hb2
          rfl
      | doesNotExist =>
          rw [hr] at h
          have h2 : (FindOutcome.doesNotExist,
              some (⟨rhost, rport, none⟩ : Request)) =
              (FindOutcome.found s, some r2) := h
          rw [Prod.mk.injEq] at h2
          exact absurd h2.1 (by simp)

/-- C4 (witness): after the first call on the fresh fixture request has
found the site, a second call on the updated request returns the same site
even though the table has been emptied in between. -/
theorem C4_success_cached_witness :
    find_for_request [] (some c4_req_cached) =
      (FindOutcome.found c4_site, some c4_req_cached) :=
  C4_success_cached [c4_site] [] c4_req c4_site c4_req_cached (by decide)

/-- C4 (counterexample): a first call that ends in `Site.DoesNotExist`
leaves the request without a cached outcome, and a second call after the
table gained a matching site returns that site — so the NotFound outcome is
not cached and resolution ran twice, contrary to the claim. -/
theorem C4_counterexample :
    find_for_request [] (some c4_req) = (FindOutcome.doesNotExist, some c4_req) ∧
      find_for_request [c4_site] (some c4_req) =
        (FindOutcome.found c4_site, some c4_req_cached) := by
  decide

/-! ### Claim C5 -/

/-- C5: for every identity, permission string and object argument,
`site_has_perm` returns true when the identity is active and a superuser,
and returns false for every inactive identity regardless of the superuser
flag. -/
theorem C5_superuser_and_inactive (su : SiteUser) (perm : String) (obj : Option Unit) :
    (su.is_active = true → su.is_superuser = true →
      (site_has_perm su perm obj).1 = true) ∧
    (su.is_active = false → (site_has_perm su perm obj).1 = false) := by
  constructor
  · intro ha hs
    simp [site_has_perm, ha, hs]
  · intro ha
    simp [site_has_perm, _site_user_has_perm, has_site_perm, ha]

/-- C5 (witness): the active-superuser and inactive-superuser fixtures. -/
theorem C5_superuser_and_inactive_witness :
    (site_has_perm c5_su_super "app.x" none).1 = true ∧
      (site_has_perm c5_su_inactive "app.x" none).1 = false :=
  ⟨(C5_superuser_and_inactive c5_su_super "app.x" none).1 rfl rfl,
   (C5_superuser_and_inactive c5_su_inactive "app.x" none).2 rfl⟩

/-! ### Claim C6 -/

/-- C6 (amended): on a per-kind cache miss with no object, an active
superuser identity gets the direct-grant query
(`Permission.objects.filter(permission_siteusers=site_user_obj)`) for both
kinds — not an unfiltered all-permissions query. -/
theorem C6_superuser_kind_query (su : SiteUser) (k : PermSource)
    (ha : su.is_active = true) (hs : su.is_superuser = true)
    (hc : permCache su k = none) :
    _get_site_permissions su none k =
      (su.site_user_permissions, setPermCache su k su.site_user_permissions) := by
  simp [_get_site_permissions, ha, hs, hc]

/-- C6 (witness): the amended theorem instantiated at the superuser fixture
for the group kind. -/
theorem C6_superuser_kind_query_witness :
    _get_site_permissions c6_su none PermSource.group =
      (c6_su.site_user_permissions,
        setPermCache c6_su PermSource.group c6_su.site_user_permissions) :=
  C6_superuser_kind_query c6_su PermSource.group rfl rfl rfl

/-- C6 (counterexample): an active superuser with direct grant app.direct
and group grant app.group, in a deployment whose full Permission table also
holds app.other: both per-kind computed sets are the direct grants, not the
unfiltered all-permissions set the claim states — the group kind does not
even get the group grants. -/
theorem C6_counterexample :
    c6_su.is_active = true ∧ c6_su.is_superuser = true ∧
      c6_su.site_user_permissions ∪ c6_su.group_permissions ⊆ c6_permissionTable ∧
      (_get_site_permissions c6_su none PermSource.user).1 ≠
        unfiltered_all_permissions c6_permissionTable ∧
      (_get_site_permissions c6_su none PermSource.group).1 ≠
        unfiltered_all_permissions c6_permissionTable ∧
      (_get_site_permissions c6_su none PermSource.group).1 =
        c6_su.site_user_permissions := by
  decide

/-! ### Claim C7 -/

/-- C7 (amended): `Site.clean` lowercases the stored hostname, but
`get_site_for_hostname` applies no normalization of its own: the returned
site carries a hostname exactly equal to the query string, so resolution at
this function is case-sensitive in the query hostname (the lowercasing of a
live request host happens in Django framework code before the call). -/
theorem C7_clean_and_exact_match :
    (∀ s : Site, (Site.clean s).hostname = py_lower s.hostname) ∧
    (∀ (table : List Site) (hostname : String) (port : Nat) (s : Site) (w : Bool),
      get_site_for_hostname table hostname port = SiteResolution.found s w →
        s.hostname = hostname) := by
  constructor
  · intro s
    rfl
  · intro table hostname port s w hf
    exact (resolve_found_spec table hostname port s w hf).2.1

/-- C7 (witness): clean lowercases the fixture hostname, and a successful
resolution returns a hostname equal to the query. -/
theorem C7_clean_and_exact_match_witness :
    (Site.clean ⟨1, "EXAMPLE.COM", 80⟩).hostname = py_lower "EXAMPLE.COM" ∧
      c7_site.hostname = "example.com" :=
  ⟨C7_clean_and_exact_match.1 ⟨1, "EXAMPLE.COM", 80⟩,
   C7_clean_and_exact_match.2 [c7_site] "example.com" 80 c7_site false (by decide)⟩

/-- C7 (counterexample): the stored hostname is the lowercase form of the
query EXAMPLE.COM, yet resolving EXAMPLE.COM raises `Site.DoesNotExist`
while the lowercase query succeeds — `get_site_for_hostname` does not
normalize the query hostname, so resolution there is not case-insensitive
as the claim states. -/
theorem C7_counterexample :
    py_lower "EXAMPLE.COM" = "example.com" ∧
      c7_site.hostname = "example.com" ∧
      get_site_for_hostname [c7_site] "EXAMPLE.COM" 80 =
        SiteResolution.doesNotExist ∧
      get_site_for_hostname [c7_site] "example.com" 80 =
        SiteResolution.found c7_site false := by
  decide

/-! ### Claim C8 -/

/-- C8: the overlay method get_group_permissions of the compatibility mixin
reads the attribute get_group_permissions off the attached site_user — a
method AbstractSiteUser does not define, so the call raises AttributeError
instead of delegating to the tenant-scoped get_site_group_permissions —
while every other overlay method reaches exactly the tenant-scoped method
the specification names. -/
theorem C8_overlay_dispatch :
    mixinDelegateTarget "get_group_permissions" = some "get_group_permissions" ∧
      specDelegateTarget "get_group_permissions" =
        some "get_site_group_permissions" ∧
      "get_group_permissions" ∉ abstractSiteUserMethods ∧
      "get_site_group_permissions" ∈ abstractSiteUserMethods ∧
      mixinDelegateTarget "get_user_permissions" =
        specDelegateTarget "get_user_permissions" ∧
      mixinDelegateTarget "get_all_permissions" =
        specDelegateTarget "get_all_permissions" ∧
      mixinDelegateTarget "has_perm" = specDelegateTarget "has_perm" ∧
      mixinDelegateTarget "has_perms" = specDelegateTarget "has_perms" ∧
      mixinDelegateTarget "has_module_perms" =
        specDelegateTarget "has_module_perms" := by
  decide

/-! ### Claim C9 -/

theorem find_first_of_unique (l : List SiteUser) (sid : Nat) (su : SiteUser)
    (hmem : su ∈ l) (hsid : su.site_id = sid)
    (huniq : ∀ a ∈ l, a.site_id = sid → a = su) :
    l.find? (fun a => a.site_id == sid) = some su := by
  induction l with
  | nil => cases hmem
  | cons x xs ih =>
      by_cases hx : x.site_id = sid
      · have hxsu : x = su := huniq x (List.mem_cons_self x xs) hx
        rw [List.find?_cons_of_pos _ (by simp [hx])]
        rw [hxsu]
      · rw [List.find?_cons_of_neg _ (by simp [hx])]
        apply ih
        · rcases List.mem_cons.mp hmem with rfl | hsu
          · exact absurd hsid hx
          · exact hsu
        · intro a ha hasid
          exact huniq a (List.mem_cons_of_mem x ha) hasid

/-- C9: `site_workon_view` reports no access and leaves the previous
session tenant id and the attached user/request pointers unchanged when the
user holds no identity for the requested site; when the (unique, by the
unique_site_user constraint) identity exists, it points the session key and
both attached pointers at that identity. -/
theorem C9_workon_switch (st : SessionRequest) (l : List SiteUser) (sid : Nat) :
    ((∀ a ∈ l, a.site_id ≠ sid) →
      site_workon_view st l sid = (st, WorkonOutcome.noAccess)) ∧
    (∀ su, su ∈ l → su.site_id = sid → (∀ a ∈ l, a.site_id = sid → a = su) →
      site_workon_view st l sid =
        ({ session_site_id := some sid, user_site_user := some su,
           request_wagtail_site := some su.site }, WorkonOutcome.success)) := by
  constructor
  · intro hnone
    have hf : l.find? (fun a => a.site_id == sid) = none :=
      List.find?_eq_none.mpr (fun a ha => by simp [hnone a ha])
    simp [site_workon_view, hf]
  · intro su hmem hsid huniq
    have hf := find_first_of_unique l sid su hmem hsid huniq
    simp [site_workon_view, hf, set_current_session_project, hsid]

/-- C9 (witness): switching to site 99 (no identity) leaves the fixture
state untouched; switching to site 1 installs the identity in all three
pointers. -/
theorem C9_workon_switch_witness :
    site_workon_view c9_state [c9_su] 99 = (c9_state, WorkonOutcome.noAccess) ∧
      site_workon_view c9_state [c9_su] 1 =
        ({ session_site_id := some 1, user_site_user := some c9_su,
           request_wagtail_site := some c9_su.site }, WorkonOutcome.success) :=
  ⟨(C9_workon_switch c9_state [c9_su] 99).1 (by decide),
   (C9_workon_switch c9_state [c9_su] 1).2 c9_su (by decide) (by decide) (by decide)⟩

/-! ### Claim C10 -/

/-- C10: with a non-null object the per-kind getters and the all-permission
getter of the backend return the empty set and leave the identity instance
(hence every cache attribute) untouched; consequently `site_has_perm` with
a non-null object is false for every non-superuser identity, while the
model-level superuser shortcut still answers true for an active superuser
regardless of the object. -/
theorem C10_object_level (su : SiteUser) (perm : String) (obj : Option Unit)
    (k : PermSource) (ho : obj.isSome = true) :
    _get_site_permissions su obj k = (∅, su) ∧
      get_site_all_permissions su obj = (∅, su) ∧
      (su.is_superuser = false → (site_has_perm su perm obj).1 = false) ∧
      (su.is_active = true → su.is_superuser = true →
        (site_has_perm su perm obj).1 = true) := by
  refine ⟨?_, ?_, ?_, ?_⟩
  · simp [_get_site_permissions, ho]
  · simp [get_site_all_permissions, ho]
  · intro hs
    by_cases ha : su.is_active = true
    · simp [site_has_perm, _site_user_has_perm, has_site_perm,
        get_site_all_permissions, hs, ha, ho]
    · have ha2 : su.is_active = false := by simpa using ha
      simp [site_has_perm, _site_user_has_perm, has_site_perm, ha2]
  · intro ha hs
    simp [site_has_perm, ha, hs]

/-- C10 (witness): the non-superuser fixture is denied its own direct grant
at object level with no state change, while the superuser fixture is still
granted. -/
theorem C10_object_level_witness :
    _get_site_permissions c10_su (some ()) PermSource.user = (∅, c10_su) ∧
      get_site_all_permissions c10_su (some ()) = (∅, c10_su) ∧
      (site_has_perm c10_su "app.direct" (some ())).1 = false ∧
      (site_has_perm c10_su_super "app.direct" (some ())).1 = true := by
  have h1 := C10_object_level c10_su "app.direct" (some ()) PermSource.user rfl
  have h2 := C10_object_level c10_su_super "app.direct" (some ()) PermSource.user rfl
  exact ⟨h1.1, h1.2.1, h1.2.2.1 rfl, h2.2.2.2 rfl rfl⟩

end WagtailSites
